import Mathlib

/-!
Verification development for the `clipper2` safe orchestration layer
(`src/clipper.rs`, `src/operations/union.rs`).

The layer under verification wraps an external clipping engine behind an
FFI boundary.  The engine itself (the `clipper2c_sys` collaborator) is not
part of this repository's core: following the specification it is treated
as a black box.  We embed it as an explicit state value (the geometry
registered on one engine handle) together with an oracle function for the
`execute` primitives.  Everything the Rust layer itself does — typestate
transitions, ownership/release bookkeeping, result conversion, the eager
deep copy of the engine's native tree — is translated directly from the
source.
-/

namespace Clipper2

/-- A point on the engine's fixed 64-bit integer grid (`ClipperPoint64`). -/
abbrev Point64 := Int × Int

/-- One contour: an ordered sequence of grid points (`ClipperPath64`). -/
abbrev Path64 := List Point64

/-- A collection of contours (`ClipperPaths64`). -/
abbrev Paths64 := List Path64

/-- `ClipType` from the source: which boolean operation to perform. -/
inductive ClipType where
  | Union
  | Difference
  | Intersection
  | Xor
deriving DecidableEq, Repr

/-- `FillRule` from the source: the winding convention. -/
inductive FillRule where
  | EvenOdd
  | NonZero
  | Positive
  | Negative
deriving DecidableEq, Repr

/-- `ClipperError` from `clipper.rs`: the single error enum of this layer,
with its single variant `FailedBooleanOperation`. -/
inductive ClipperError where
  | FailedBooleanOperation
deriving DecidableEq, Repr

/-- The geometry registered on one engine handle (`*mut ClipperClipper64`):
the accumulated subject, open-subject and clip collections, in the order the
builder registered them. -/
structure EngineState where
  subjects : Paths64
  openSubjects : Paths64
  clips : Paths64
deriving DecidableEq, Repr

/-- A freshly allocated engine handle (`clipper_clipper64(malloc ...)`) holds
no geometry. -/
def EngineState.empty : EngineState := ⟨[], [], []⟩

/-- The engine's native containment tree (`ClipperPolyTree64`): each node
carries a hole flag, a polygon contour, and ordered children (accessed by
0-based index in the C API). -/
inductive EngineTree where
  | node (isHole : Bool) (polygon : Path64) (children : List EngineTree)

/-- The external engine, reduced to its two execute primitives.  A `none`
result models a non-success (`!= 1`) return from the C call; a `some` result
models success with the contents the engine wrote into the caller-supplied
output buffers. -/
structure Engine where
  exec : EngineState → ClipType → FillRule → Option (Paths64 × Paths64)
  execTree : EngineState → ClipType → FillRule → Option (EngineTree × Paths64)

/-- The three typestate markers `NoSubjects`, `WithSubjects`, `WithClips`
from `clipper.rs`. -/
inductive StateTag where
  | NoSubjects
  | WithSubjects
  | WithClips
deriving DecidableEq, Repr

/-- Embedding of the runtime content of `Clipper<S, P>`: the engine handle's
registered geometry and the `keep_ptr_on_drop` flag that suppresses handle
release on drop.  The typestate parameter `S` is a phantom marker in the
source (its state structs are empty); here the tag is tracked alongside the
value where a claim needs it. -/
structure Clipper where
  engine : EngineState
  keep_ptr_on_drop : Bool
deriving DecidableEq, Repr

/-- Number of `clipper_delete_clipper64` calls performed by
`Drop for Clipper` when a builder value with the given flag is dropped. -/
def dropReleases (keep : Bool) : Nat := if keep then 0 else 1

namespace Clipper

/-- `Clipper::<NoSubjects>::new`: allocates a fresh engine handle;
`keep_ptr_on_drop` starts `false`. -/
def new : Clipper := ⟨EngineState.empty, false⟩

/-- `Clipper::<WithSubjects>::add_subject` (the "stay" variant): registers
the collection on the handle (and frees the transient input buffer) and
returns `self`. -/
def add_subject_stay (self : Clipper) (subject : Paths64) : Clipper :=
  { self with engine := { self.engine with subjects := self.engine.subjects ++ subject } }

/-- `Clipper::<WithSubjects>::add_open_subject` (the "stay" variant). -/
def add_open_subject_stay (self : Clipper) (subject : Paths64) : Clipper :=
  { self with engine := { self.engine with openSubjects := self.engine.openSubjects ++ subject } }

/-- `Clipper::<WithClips>::add_clip` (the "stay" variant). -/
def add_clip_stay (self : Clipper) (clip : Paths64) : Clipper :=
  { self with engine := { self.engine with clips := self.engine.clips ++ clip } }

/-- `Clipper::<NoSubjects>::add_subject`: sets `keep_ptr_on_drop` on `self`,
builds the `WithSubjects` wrapper around the same handle with the flag
cleared, drops the old value (counting the handle releases that drop
performs), then delegates to the stay variant.  Returns the new builder and
the number of handle releases during the call. -/
def add_subject (self : Clipper) (subject : Paths64) : Clipper × Nat :=
  let selfKept : Clipper := { self with keep_ptr_on_drop := true }
  let clipper : Clipper := { engine := self.engine, keep_ptr_on_drop := false }
  let releases := dropReleases selfKept.keep_ptr_on_drop
  (clipper.add_subject_stay subject, releases)

/-- `Clipper::<NoSubjects>::add_open_subject`: same transfer pattern as
`add_subject`. -/
def add_open_subject (self : Clipper) (subject : Paths64) : Clipper × Nat :=
  let selfKept : Clipper := { self with keep_ptr_on_drop := true }
  let clipper : Clipper := { engine := self.engine, keep_ptr_on_drop := false }
  let releases := dropReleases selfKept.keep_ptr_on_drop
  (clipper.add_open_subject_stay subject, releases)

/-- `Clipper::<WithSubjects>::add_clip`: sets `keep_ptr_on_drop` on `self`,
builds the `WithClips` wrapper with the flag cleared, drops the old value,
then delegates to the stay variant. -/
def add_clip (self : Clipper) (clip : Paths64) : Clipper × Nat :=
  let selfKept : Clipper := { self with keep_ptr_on_drop := true }
  let clipper : Clipper := { engine := self.engine, keep_ptr_on_drop := false }
  let releases := dropReleases selfKept.keep_ptr_on_drop
  (clipper.add_clip_stay clip, releases)

end Clipper

/-- `PolyTree<P>` from `clipper.rs`: an application-owned node holding its
children, its hole flag, and its polygon — fully independent of engine
memory after construction. -/
inductive PolyTree where
  | mk (children : List PolyTree) (is_hole : Bool) (polygon : Path64)

/-- Field accessor for `children`. -/
def PolyTree.children : PolyTree → List PolyTree
  | .mk cs _ _ => cs

/-- Field accessor for the hole flag. -/
def PolyTree.is_hole : PolyTree → Bool
  | .mk _ h _ => h

/-- Field accessor for `polygon` (`PolyTree::polygon`). -/
def PolyTree.polygon : PolyTree → Path64
  | .mk _ _ p => p

mutual

/-- `PolyTree::from_ptr`: the eager deep copy.  For each engine node it reads
the hole flag, copies the polygon contour, then maps over the child indices
`0..count` in order, recursing to build owned children, and assembles the
owned node. -/
def PolyTree.from_ptr : EngineTree → PolyTree
  | .node isHole polygon children =>
    .mk (PolyTree.from_ptr_children children) isHole polygon

/-- The `(0..count).map(|i| from_ptr(get_child(ptr, i)))` loop of
`PolyTree::from_ptr`, walking child indices in the engine's reported
order. -/
def PolyTree.from_ptr_children : List EngineTree → List PolyTree
  | [] => []
  | t :: ts => PolyTree.from_ptr t :: PolyTree.from_ptr_children ts

end

/-- `PolyTree::child_count`. -/
def PolyTree.child_count (self : PolyTree) : Nat := self.children.length

/-- `PolyTree::get_child`: `self.children.get(index)` — total, returns
`none` out of bounds, never panics. -/
def PolyTree.get_child (self : PolyTree) (index : Nat) : Option PolyTree :=
  self.children.get? index

mutual

/-- `PolyTree::collect_paths`: pushes this node's polygon, then recurses into
each child in order, threading the accumulating vector. -/
def PolyTree.collect_paths : PolyTree → List Path64 → List Path64
  | .mk cs _ p, paths => PolyTree.collect_paths_children cs (paths ++ [p])

/-- The `for child in &self.children` loop of `collect_paths`. -/
def PolyTree.collect_paths_children : List PolyTree → List Path64 → List Path64
  | [], paths => paths
  | c :: cs, paths => PolyTree.collect_paths_children cs (c.collect_paths paths)

end

/-- `PolyTree::to_paths`: starts from an empty vector and runs
`collect_paths`. -/
def PolyTree.to_paths (self : PolyTree) : Paths64 :=
  self.collect_paths []

mutual

/-- `PolyTree::collect_hole_paths`: pushes this node's polygon only when
`is_hole`, then recurses into each child in order. -/
def PolyTree.collect_hole_paths : PolyTree → List Path64 → List Path64
  | .mk cs h p, paths =>
    PolyTree.collect_hole_paths_children cs (if h then paths ++ [p] else paths)

/-- The `for child in &self.children` loop of `collect_hole_paths`. -/
def PolyTree.collect_hole_paths_children : List PolyTree → List Path64 → List Path64
  | [], paths => paths
  | c :: cs, paths => PolyTree.collect_hole_paths_children cs (c.collect_hole_paths paths)

end

/-- `PolyTree::get_hole_paths`: starts from an empty vector and runs
`collect_hole_paths`. -/
def PolyTree.get_hole_paths (self : PolyTree) : Paths64 :=
  self.collect_hole_paths []

/-- `BooleanResult<P>`: closed and open output collections of a flat boolean
operation. -/
structure BooleanResult where
  closed : Paths64
  openPaths : Paths64
deriving DecidableEq, Repr

/-- `BooleanTreeResult<P>`: the reconstructed tree plus the open output
collection. -/
structure BooleanTreeResult where
  tree : PolyTree
  openPaths : Paths64

/-- Observable record of one `boolean_operation` call: its returned value,
the output buffers allocated (`closed_path`, `open_path`), the
`clipper_delete_paths64` calls made on them, and the
`clipper_delete_clipper64` calls made on the builder's handle. -/
structure FlatCall where
  result : Except ClipperError BooleanResult
  outputBuffersAllocated : Nat
  outputBuffersDeleted : Nat
  handleReleases : Nat

/-- Observable record of one `boolean_operation_tree` call: its returned
value, the `clipper_delete_polytree64` calls on the output tree handle, the
`clipper_delete_paths64` calls on the open-output buffer, and the
`clipper_delete_clipper64` calls on the builder's handle. -/
structure TreeCall where
  result : Except ClipperError BooleanTreeResult
  treeHandlesDeleted : Nat
  openBuffersDeleted : Nat
  handleReleases : Nat

namespace Clipper

/-- `Clipper::<WithClips>::boolean_operation`: allocates the two output
buffers, invokes `clipper_clipper64_execute`; on non-success deletes both
buffers and returns `FailedBooleanOperation` without reading them; on
success converts both buffers into owned collections, deletes them, and
returns the result.  On every path the builder is consumed and its drop
runs with the flag it carries. -/
def boolean_operation (E : Engine) (self : Clipper)
    (clip_type : ClipType) (fill_rule : FillRule) : FlatCall :=
  match E.exec self.engine clip_type fill_rule with
  | none =>
    { result := .error .FailedBooleanOperation
      outputBuffersAllocated := 2
      outputBuffersDeleted := 2
      handleReleases := dropReleases self.keep_ptr_on_drop }
  | some (closedResult, openResult) =>
    { result := .ok ⟨closedResult, openResult⟩
      outputBuffersAllocated := 2
      outputBuffersDeleted := 2
      handleReleases := dropReleases self.keep_ptr_on_drop }

/-- `Clipper::<WithClips>::union`. -/
def union (E : Engine) (self : Clipper) (fill_rule : FillRule) : FlatCall :=
  self.boolean_operation E .Union fill_rule

/-- `Clipper::<WithClips>::difference`. -/
def difference (E : Engine) (self : Clipper) (fill_rule : FillRule) : FlatCall :=
  self.boolean_operation E .Difference fill_rule

/-- `Clipper::<WithClips>::intersect`. -/
def intersect (E : Engine) (self : Clipper) (fill_rule : FillRule) : FlatCall :=
  self.boolean_operation E .Intersection fill_rule

/-- `Clipper::<WithClips>::xor`. -/
def xor (E : Engine) (self : Clipper) (fill_rule : FillRule) : FlatCall :=
  self.boolean_operation E .Xor fill_rule

/-- `Clipper::<WithClips>::boolean_operation_tree`: allocates the output
tree and open-paths buffers, invokes
`clipper_clipper64_execute_tree_with_open`; on non-success deletes both and
returns `FailedBooleanOperation`; on success eagerly copies the native tree
via `PolyTree::from_ptr`, then deletes the native tree in one
`clipper_delete_polytree64` call, converts and deletes the open buffer, and
returns the result. -/
def boolean_operation_tree (E : Engine) (self : Clipper)
    (clip_type : ClipType) (fill_rule : FillRule) : TreeCall :=
  match E.execTree self.engine clip_type fill_rule with
  | none =>
    { result := .error .FailedBooleanOperation
      treeHandlesDeleted := 1
      openBuffersDeleted := 1
      handleReleases := dropReleases self.keep_ptr_on_drop }
  | some (nativeTree, openOut) =>
    { result := .ok ⟨PolyTree.from_ptr nativeTree, openOut⟩
      treeHandlesDeleted := 1
      openBuffersDeleted := 1
      handleReleases := dropReleases self.keep_ptr_on_drop }

/-- `Clipper::<WithClips>::union_tree`. -/
def union_tree (E : Engine) (self : Clipper) (fill_rule : FillRule) : TreeCall :=
  self.boolean_operation_tree E .Union fill_rule

/-- `Clipper::<WithClips>::difference_tree`. -/
def difference_tree (E : Engine) (self : Clipper) (fill_rule : FillRule) : TreeCall :=
  self.boolean_operation_tree E .Difference fill_rule

/-- `Clipper::<WithClips>::intersect_tree`. -/
def intersect_tree (E : Engine) (self : Clipper) (fill_rule : FillRule) : TreeCall :=
  self.boolean_operation_tree E .Intersection fill_rule

/-- `Clipper::<WithClips>::xor_tree`. -/
def xor_tree (E : Engine) (self : Clipper) (fill_rule : FillRule) : TreeCall :=
  self.boolean_operation_tree E .Xor fill_rule

end Clipper

/-! ### The typestate layer

The Rust builder exposes a distinct method set per state type; illegal
sequences do not type-check.  We mirror the three impl blocks as an
explicit table of exposed operations per state tag, and the state-changing
effect of each non-terminal operation as a partial transition function. -/

/-- The builder's public operations, one constructor per method of the
three impl blocks (terminal boolean operations included). -/
inductive BuilderOp where
  | add_subject
  | add_open_subject
  | add_clip
  | union
  | difference
  | intersect
  | xor
  | union_tree
  | difference_tree
  | intersect_tree
  | xor_tree
deriving DecidableEq, Repr

/-- Whether an operation is one of the eight terminal boolean operations. -/
def BuilderOp.isBooleanOp : BuilderOp → Bool
  | .union | .difference | .intersect | .xor
  | .union_tree | .difference_tree | .intersect_tree | .xor_tree => true
  | .add_subject | .add_open_subject | .add_clip => false

/-- The method set each state type exposes, read off the three
`impl Clipper<_, P>` blocks of `clipper.rs`. -/
def exposedOps : StateTag → List BuilderOp
  | .NoSubjects => [.add_subject, .add_open_subject]
  | .WithSubjects => [.add_subject, .add_open_subject, .add_clip]
  | .WithClips =>
    [.add_clip, .union, .difference, .intersect, .xor,
     .union_tree, .difference_tree, .intersect_tree, .xor_tree]

/-- State transition of each non-terminal builder method: `none` when the
state's impl block has no such method (the call does not type-check in the
source) or when the method is terminal (it consumes the builder and returns
a result, not a builder). -/
def trans : StateTag → BuilderOp → Option StateTag
  | .NoSubjects, .add_subject => some .WithSubjects
  | .NoSubjects, .add_open_subject => some .WithSubjects
  | .WithSubjects, .add_subject => some .WithSubjects
  | .WithSubjects, .add_open_subject => some .WithSubjects
  | .WithSubjects, .add_clip => some .WithClips
  | .WithClips, .add_clip => some .WithClips
  | _, _ => none

/-- Runs a sequence of non-terminal builder operations from a state;
`none` as soon as an operation is not available in the current state. -/
def runTags (s : StateTag) : List BuilderOp → Option StateTag
  | [] => some s
  | op :: ops =>
    match trans s op with
    | none => none
    | some t => runTags t ops

/-! ### Lifecycle runs with release accounting

For the ownership claims we run concrete registration sequences from
`Clipper::new()`, threading the builder value and the cumulative number of
`clipper_delete_clipper64` calls, then finish the lifecycle by either
discarding the builder (its `Drop` runs) or invoking a terminal boolean
operation. -/

/-- A registration call with its geometry payload. -/
inductive RegOp where
  | add_subject (ps : Paths64)
  | add_open_subject (ps : Paths64)
  | add_clip (ps : Paths64)

/-- One registration step on a tagged builder, dispatching to the method
the current state type exposes; `none` when the source would not
type-check.  Returns the new tagged builder and the handle releases the
call performed. -/
def stepReg : StateTag × Clipper → RegOp → Option ((StateTag × Clipper) × Nat)
  | (.NoSubjects, c), .add_subject ps =>
    some ((.WithSubjects, (c.add_subject ps).1), (c.add_subject ps).2)
  | (.NoSubjects, c), .add_open_subject ps =>
    some ((.WithSubjects, (c.add_open_subject ps).1), (c.add_open_subject ps).2)
  | (.WithSubjects, c), .add_subject ps =>
    some ((.WithSubjects, c.add_subject_stay ps), 0)
  | (.WithSubjects, c), .add_open_subject ps =>
    some ((.WithSubjects, c.add_open_subject_stay ps), 0)
  | (.WithSubjects, c), .add_clip ps =>
    some ((.WithClips, (c.add_clip ps).1), (c.add_clip ps).2)
  | (.WithClips, c), .add_clip ps =>
    some ((.WithClips, c.add_clip_stay ps), 0)
  | (.NoSubjects, _), .add_clip _ => none
  | (.WithClips, _), .add_subject _ => none
  | (.WithClips, _), .add_open_subject _ => none

/-- Runs a registration sequence from a tagged builder, accumulating handle
releases. -/
def runRegFrom : StateTag × Clipper → Nat → List RegOp → Option ((StateTag × Clipper) × Nat)
  | sc, acc, [] => some (sc, acc)
  | sc, acc, op :: ops =>
    match stepReg sc op with
    | none => none
    | some (sc2, r) => runRegFrom sc2 (acc + r) ops

/-- Runs a registration sequence from `Clipper::new()`. -/
def runReg (ops : List RegOp) : Option ((StateTag × Clipper) × Nat) :=
  runRegFrom (.NoSubjects, Clipper.new) 0 ops

/-- How a builder lifecycle ends: discarded (dropped) in its current state,
or consumed by a terminal flat/tree boolean operation (only exposed by the
`WithClips` state). -/
inductive Finisher where
  | discard
  | flat (clip_type : ClipType) (fill_rule : FillRule)
  | tree (clip_type : ClipType) (fill_rule : FillRule)

/-- Handle releases performed by the chosen lifecycle ending. -/
def finisherReleases (E : Engine) : StateTag × Clipper → Finisher → Option Nat
  | (_, c), .discard => some (dropReleases c.keep_ptr_on_drop)
  | (.WithClips, c), .flat ct fr => some (c.boolean_operation E ct fr).handleReleases
  | (.WithClips, c), .tree ct fr => some (c.boolean_operation_tree E ct fr).handleReleases
  | (.NoSubjects, _), .flat _ _ => none
  | (.NoSubjects, _), .tree _ _ => none
  | (.WithSubjects, _), .flat _ _ => none
  | (.WithSubjects, _), .tree _ _ => none

/-- Total `clipper_delete_clipper64` calls over one complete builder
lifecycle: a registration sequence from `Clipper::new()` followed by a
finisher; `none` for sequences the source type system rejects. -/
def lifecycleReleases (E : Engine) (ops : List RegOp) (fin : Finisher) : Option Nat :=
  match runReg ops with
  | none => none
  | some (sc, r) =>
    match finisherReleases E sc fin with
    | none => none
    | some r2 => some (r + r2)

namespace Operations

/-- The free function `union` of `src/operations/union.rs`:
`Clipper::new().add_subject(subject).add_clip(clip).union(fill_rule)`. -/
def union (E : Engine) (subject clip : Paths64) (fill_rule : FillRule) : FlatCall :=
  (((Clipper.new.add_subject subject).1.add_clip clip).1).union E fill_rule

end Operations

/-! ### Specification-side definitions

Used only to compare the source's traversals against the spec's words
("pre-order flatten of this node and all descendants' polygons", "only
nodes whose `is_hole` is true"). -/

mutual

/-- Spec-side: the depth-first pre-order node sequence of a tree — the node
itself first, then each child's subtree in children order. -/
def PolyTree.preorderNodes : PolyTree → List PolyTree
  | .mk cs h p => .mk cs h p :: PolyTree.preorderNodesList cs

/-- Spec-side: pre-order node sequences of a forest, concatenated in
order. -/
def PolyTree.preorderNodesList : List PolyTree → List PolyTree
  | [] => []
  | t :: ts => t.preorderNodes ++ PolyTree.preorderNodesList ts

end

/-! ### Spec-modelled collaborators

The coordinate scaler (`Centi`, `PointScaler`) and the clipping engine are
outside `src/`; where a claim depends on them they are modelled from the
spec, with application coordinates represented as rationals. -/

/-- Modelled from the spec: the `Centi` point scaler (fixed multiplier
100) mapping an application coordinate pair onto the engine's integer
grid, rounding to the nearest grid point.  The scaler type itself lives
outside `src/`. -/
def centiScalePoint (p : ℚ × ℚ) : Point64 :=
  (round ((100 : ℚ) * p.1), round ((100 : ℚ) * p.2))

/-- Modelled from the spec: `Centi` scaling of one contour. -/
def centiScalePath (path : List (ℚ × ℚ)) : Path64 :=
  path.map centiScalePoint

/-- Modelled from the spec: the inverse `Centi` conversion, mapping a grid
point back to application coordinates (division by the multiplier). -/
def centiDescalePoint (p : Point64) : ℚ × ℚ :=
  ((p.1 : ℚ) / 100, (p.2 : ℚ) / 100)

/-- Modelled from the spec: inverse `Centi` conversion of one contour. -/
def centiDescalePath (path : Path64) : List (ℚ × ℚ) :=
  path.map centiDescalePoint

/-- The spec's concrete union scenario: the subject square
`(0.2,0.2)-(6,0.2)-(6,6)-(0.2,6)` in application coordinates. -/
def unionSubjectQ : List (ℚ × ℚ) :=
  [(1/5, 1/5), (6, 1/5), (6, 6), (1/5, 6)]

/-- The spec's concrete union scenario: the clip square
`(5,5)-(8,5)-(8,8)-(5,8)`. -/
def unionClipQ : List (ℚ × ℚ) :=
  [(5, 5), (8, 5), (8, 8), (5, 8)]

/-- The spec's concrete union scenario: the expected 8-vertex L-shaped
union contour, in application coordinates (as pinned by the repository's
`test_union`). -/
def unionExpectedQ : List (ℚ × ℚ) :=
  [(6, 5), (8, 5), (8, 8), (5, 8), (5, 6), (1/5, 6), (1/5, 1/5), (6, 1/5)]

/-- The engine state holding the scenario's registered geometry. -/
def unionFixtureState : EngineState :=
  { subjects := [centiScalePath unionSubjectQ]
    openSubjects := []
    clips := [centiScalePath unionClipQ] }

/-- Modelled from the spec: the external engine's `execute` primitive on
the pinned union fixture — a union of the two squares with the non-zero
fill rule succeeds with the single L-shaped closed contour and no open
paths.  The engine's clipping algorithm is explicitly out of scope; only
this pinned behaviour is modelled. -/
def unionFixtureEngine : Engine where
  exec := fun st ct fr =>
    if st = unionFixtureState ∧ ct = .Union ∧ fr = .NonZero then
      some ([centiScalePath unionExpectedQ], [])
    else
      none
  execTree := fun _ _ _ => none

/-- The hole scenario's outer (subject) square contour on the engine
grid. -/
def scenarioOuter : Path64 := [(0, 0), (1000, 0), (1000, 1000), (0, 1000)]

/-- The hole scenario's inner (clip) square contour on the engine grid,
fully inside the outer square. -/
def scenarioHole : Path64 := [(200, 200), (800, 200), (800, 800), (200, 800)]

/-- Modelled from the spec: the engine's native tree for a subject square
with one clip polygon fully inside it (one hole) — a virtual root
container (no polygon of its own, not a hole) whose direct child is the
solid outer node, which in turn has the single hole child.  The engine's
tree construction is outside `src/`. -/
def holeScenarioTree : EngineTree :=
  .node false [] [.node false scenarioOuter [.node true scenarioHole []]]

/-- Modelled from the spec: an engine whose tree-producing execute
primitive succeeds with the hole scenario's native tree and no open
paths. -/
def scenarioEngine : Engine where
  exec := fun _ _ _ => none
  execTree := fun _ _ _ => some (holeScenarioTree, [])

/-- A `WithClips` builder for the hole scenario (subject square with the
clip fully inside). -/
def scenarioBuilder : Clipper :=
  ((Clipper.new.add_subject [scenarioOuter]).1.add_clip [scenarioHole]).1

/-- An engine whose execute primitives always report non-success (models a
failing engine run). -/
def failEngine : Engine where
  exec := fun _ _ _ => none
  execTree := fun _ _ _ => none

/-- An engine whose flat execute always succeeds with a fixed output
(models a deterministic successful engine run). -/
def okEngine : Engine where
  exec := fun _ _ _ => some ([[(0, 0), (4, 0), (4, 4)]], [])
  execTree := fun _ _ _ => some (.node false [] [], [])

/-- Order-insensitive equality of two path collections: the same multiset
of contours, each contour compared as its ordered point sequence. -/
def pathsSetEq (a b : Paths64) : Prop :=
  (a : Multiset Path64) = (b : Multiset Path64)

/-- Full flat-operation pipeline used for the determinism claim: run a
registration sequence from `Clipper::new()` and, when it ends in the
`WithClips` state, invoke `boolean_operation`. -/
def runFlat (E : Engine) (ops : List RegOp) (ct : ClipType) (fr : FillRule) :
    Option FlatCall :=
  match runReg ops with
  | some ((.WithClips, c), _) => some (c.boolean_operation E ct fr)
  | _ => none

/-- A sample subject contour for concrete instantiations. -/
def samplePath : Path64 := [(0, 0), (4, 0), (4, 4), (0, 4)]

/-- A sample clip contour for concrete instantiations. -/
def sampleClip : Path64 := [(1, 1), (3, 1), (3, 3), (1, 3)]

/-- A sample legal registration sequence: one subject, one clip. -/
def sampleOps : List RegOp := [.add_subject [samplePath], .add_clip [sampleClip]]

/-- The flat call produced by running `sampleOps` against `okEngine`. -/
def sampleCall : FlatCall :=
  Clipper.boolean_operation okEngine
    ((Clipper.new.add_subject [samplePath]).1.add_clip [sampleClip]).1 .Union .NonZero

/-! ### Helper lemmas -/

mutual

theorem collect_paths_eq : ∀ (t : PolyTree) (acc : List Path64),
    t.collect_paths acc = acc ++ (t.preorderNodes.map PolyTree.polygon)
  | .mk cs h p, acc => by
    rw [PolyTree.collect_paths, collect_paths_children_eq, PolyTree.preorderNodes]
    simp [PolyTree.polygon]

theorem collect_paths_children_eq : ∀ (ts : List PolyTree) (acc : List Path64),
    PolyTree.collect_paths_children ts acc =
      acc ++ ((PolyTree.preorderNodesList ts).map PolyTree.polygon)
  | [], acc => by simp [PolyTree.collect_paths_children, PolyTree.preorderNodesList]
  | t :: ts, acc => by
    rw [PolyTree.collect_paths_children, collect_paths_children_eq, collect_paths_eq,
      PolyTree.preorderNodesList]
    simp

end

mutual

theorem collect_hole_paths_eq : ∀ (t : PolyTree) (acc : List Path64),
    t.collect_hole_paths acc =
      acc ++ ((t.preorderNodes.filter PolyTree.is_hole).map PolyTree.polygon)
  | .mk cs h p, acc => by
    rw [PolyTree.collect_hole_paths, collect_hole_paths_children_eq, PolyTree.preorderNodes]
    cases h <;> simp [List.filter, PolyTree.is_hole, PolyTree.polygon]

theorem collect_hole_paths_children_eq : ∀ (ts : List PolyTree) (acc : List Path64),
    PolyTree.collect_hole_paths_children ts acc =
      acc ++ (((PolyTree.preorderNodesList ts).filter PolyTree.is_hole).map PolyTree.polygon)
  | [], acc => by simp [PolyTree.collect_hole_paths_children, PolyTree.preorderNodesList]
  | t :: ts, acc => by
    rw [PolyTree.collect_hole_paths_children, collect_hole_paths_children_eq,
      collect_hole_paths_eq, PolyTree.preorderNodesList]
    simp

end

theorem from_ptr_children_eq_map : ∀ (ts : List EngineTree),
    PolyTree.from_ptr_children ts = ts.map PolyTree.from_ptr
  | [] => rfl
  | t :: ts => by rw [PolyTree.from_ptr_children, from_ptr_children_eq_map]; rfl

theorem runTags_clip_mem : ∀ (ops : List BuilderOp) (s : StateTag),
    runTags s ops = some .WithClips → s = .WithClips ∨ .add_clip ∈ ops
  | [], s, h => by
    simp [runTags] at h
    exact .inl h
  | op :: ops, s, h => by
    cases s <;> cases op <;> simp [runTags, trans] at h <;>
      rcases runTags_clip_mem ops _ h with ht | hm <;>
        simp_all

theorem runTags_subject_mem : ∀ (ops : List BuilderOp),
    runTags .NoSubjects ops = some .WithClips →
    .add_subject ∈ ops ∨ .add_open_subject ∈ ops
  | [], h => by simp [runTags] at h
  | op :: ops, h => by
    cases op <;> simp [runTags, trans] at h <;> simp

theorem runRegFrom_inv : ∀ (ops : List RegOp) (s : StateTag) (c : Clipper) (acc : Nat)
    (res : (StateTag × Clipper) × Nat),
    c.keep_ptr_on_drop = false →
    runRegFrom (s, c) acc ops = some res →
    res.2 = acc ∧ res.1.2.keep_ptr_on_drop = false
  | [], s, c, acc, res, hc, h => by
    simp [runRegFrom] at h
    simp [← h, hc]
  | op :: ops, s, c, acc, res, hc, h => by
    cases s <;> cases op <;>
      simp [runRegFrom, stepReg, Clipper.add_subject, Clipper.add_open_subject,
        Clipper.add_clip, Clipper.add_subject_stay, Clipper.add_open_subject_stay,
        Clipper.add_clip_stay, dropReleases] at h <;>
      exact runRegFrom_inv ops _ _ _ res (by simp [hc]) h

theorem boolean_operation_handleReleases (E : Engine) (c : Clipper)
    (ct : ClipType) (fr : FillRule) :
    (c.boolean_operation E ct fr).handleReleases = dropReleases c.keep_ptr_on_drop := by
  unfold Clipper.boolean_operation
  rcases E.exec c.engine ct fr with _ | ⟨a, b⟩ <;> rfl

theorem boolean_operation_tree_handleReleases (E : Engine) (c : Clipper)
    (ct : ClipType) (fr : FillRule) :
    (c.boolean_operation_tree E ct fr).handleReleases = dropReleases c.keep_ptr_on_drop := by
  unfold Clipper.boolean_operation_tree
  rcases E.execTree c.engine ct fr with _ | ⟨a, b⟩ <;> rfl

/-! ### Claim theorems -/

/-- C1, counterexample.  The claim reads `BooleanTreeResult.tree` as the
virtual root's direct children with no wrapper node of its own; for the
hole scenario it would then be a single top-level non-hole node whose
single child is a hole, with `to_paths` of length two.  The code instead
eagerly copies the engine's root container itself as a node, so the
top-level value's single child is the solid outer node (not a hole) and
its `to_paths` has three contours (the root's empty polygon included). -/
theorem c1_tree_forest_counterexample :
    (Clipper.boolean_operation_tree scenarioEngine scenarioBuilder .Difference .NonZero).result =
      .ok ⟨PolyTree.from_ptr holeScenarioTree, []⟩ ∧
    ¬ ((PolyTree.from_ptr holeScenarioTree).child_count = 1 ∧
       ((PolyTree.from_ptr holeScenarioTree).get_child 0).map PolyTree.is_hole = some true ∧
       (PolyTree.from_ptr holeScenarioTree).to_paths.length = 2 ∧
       (PolyTree.from_ptr holeScenarioTree).get_hole_paths.length = 1) :=
  ⟨rfl, by decide⟩

/-- C1, amended.  For every successful tree-producing boolean operation
whose engine tree is a virtual root container (empty polygon, not a hole)
with one solid child holding one hole child, `BooleanTreeResult.tree` is
the eager copy of that root container itself: a wrapper node whose direct
children are the top-level nodes.  The wrapper is non-hole with exactly
one child; that child is non-hole and its single child is the hole; the
child's `to_paths` has exactly the two contours, the wrapper's `to_paths`
additionally carries the root's empty contour, and `get_hole_paths`
returns exactly the one hole contour. -/
theorem c1_tree_wrapped_root (E : Engine) (self : Clipper) (ct : ClipType) (fr : FillRule)
    (outer hole : Path64) (openOut : Paths64)
    (h : E.execTree self.engine ct fr =
      some (.node false [] [.node false outer [.node true hole []]], openOut)) :
    (self.boolean_operation_tree E ct fr).result =
      .ok ⟨.mk [.mk [.mk [] true hole] false outer] false [], openOut⟩ ∧
    (PolyTree.mk [.mk [.mk [] true hole] false outer] false []).is_hole = false ∧
    (PolyTree.mk [.mk [.mk [] true hole] false outer] false []).child_count = 1 ∧
    (PolyTree.mk [.mk [.mk [] true hole] false outer] false []).get_child 0 =
      some (.mk [.mk [] true hole] false outer) ∧
    (PolyTree.mk [.mk [] true hole] false outer).is_hole = false ∧
    (PolyTree.mk [.mk [] true hole] false outer).to_paths = [outer, hole] ∧
    (PolyTree.mk [.mk [.mk [] true hole] false outer] false []).to_paths =
      [[], outer, hole] ∧
    (PolyTree.mk [.mk [.mk [] true hole] false outer] false []).get_hole_paths = [hole] := by
  refine ⟨?_, rfl, rfl, rfl, rfl, ?_, ?_, ?_⟩
  · simp [Clipper.boolean_operation_tree, h, PolyTree.from_ptr, PolyTree.from_ptr_children]
  · simp [PolyTree.to_paths, PolyTree.collect_paths, PolyTree.collect_paths_children]
  · simp [PolyTree.to_paths, PolyTree.collect_paths, PolyTree.collect_paths_children]
  · simp [PolyTree.get_hole_paths, PolyTree.collect_hole_paths,
      PolyTree.collect_hole_paths_children]

/-- C1, witness for the amended theorem: the concrete hole scenario. -/
theorem c1_tree_wrapped_root_witness :
    (Clipper.boolean_operation_tree scenarioEngine scenarioBuilder .Difference .NonZero).result =
      .ok ⟨.mk [.mk [.mk [] true scenarioHole] false scenarioOuter] false [], []⟩ :=
  (c1_tree_wrapped_root scenarioEngine scenarioBuilder .Difference .NonZero
    scenarioOuter scenarioHole [] rfl).1

/-- C2: the eight boolean operations appear in a state's exposed method set
exactly when that state is `WithClips`, and every operation sequence from
`Clipper::new()` that reaches `WithClips` registered at least one subject
(open or closed) and at least one clip.  The enforcement is structural:
`trans`/`exposedOps` mirror which impl block defines which method; there is
no runtime check to fail. -/
theorem c2_typestate (op : BuilderOp) (s : StateTag) (ops : List BuilderOp)
    (hb : op.isBooleanOp = true) :
    (op ∈ exposedOps s ↔ s = .WithClips) ∧
    (runTags .NoSubjects ops = some .WithClips →
      (.add_subject ∈ ops ∨ .add_open_subject ∈ ops) ∧ .add_clip ∈ ops) := by
  constructor
  · cases op <;> cases s <;> simp_all [exposedOps, BuilderOp.isBooleanOp]
  · intro h
    refine ⟨runTags_subject_mem ops h, ?_⟩
    rcases runTags_clip_mem ops .NoSubjects h with hs | hm
    · exact absurd hs (by simp)
    · exact hm

/-- C2, witness: `union` is exposed in `WithClips`, and the sequence
`[add_subject, add_clip]` reaches `WithClips` having registered both. -/
theorem c2_typestate_witness :
    (BuilderOp.add_subject ∈ ([.add_subject, .add_clip] : List BuilderOp) ∨
      BuilderOp.add_open_subject ∈ ([.add_subject, .add_clip] : List BuilderOp)) ∧
    BuilderOp.add_clip ∈ ([.add_subject, .add_clip] : List BuilderOp) :=
  (c2_typestate .union .WithClips [.add_subject, .add_clip] rfl).2 rfl

/-- C3: over every complete builder lifecycle — any legal registration
sequence from `Clipper::new()`, ended either by discarding the builder or
by a terminal flat/tree boolean operation against any engine outcome — the
engine handle is released exactly once. -/
theorem c3_handle_released_once (E : Engine) (ops : List RegOp) (fin : Finisher) (n : Nat)
    (h : lifecycleReleases E ops fin = some n) : n = 1 := by
  unfold lifecycleReleases at h
  cases hr : runReg ops with
  | none => rw [hr] at h; simp at h
  | some res =>
    rw [hr] at h
    obtain ⟨⟨s, c⟩, r⟩ := res
    have hr2 : runRegFrom (.NoSubjects, Clipper.new) 0 ops = some ((s, c), r) := hr
    obtain ⟨hacc0, hkeep0⟩ := runRegFrom_inv ops .NoSubjects Clipper.new 0 ((s, c), r) rfl hr2
    have hacc : r = 0 := hacc0
    have hkeep : c.keep_ptr_on_drop = false := hkeep0
    subst hacc
    cases fin with
    | discard =>
      simp [finisherReleases, dropReleases, hkeep] at h
      omega
    | flat ct fr =>
      cases s with
      | NoSubjects => simp [finisherReleases] at h
      | WithSubjects => simp [finisherReleases] at h
      | WithClips =>
        simp [finisherReleases, boolean_operation_handleReleases, hkeep, dropReleases] at h
        omega
    | tree ct fr =>
      cases s with
      | NoSubjects => simp [finisherReleases] at h
      | WithSubjects => simp [finisherReleases] at h
      | WithClips =>
        simp [finisherReleases, boolean_operation_tree_handleReleases, hkeep, dropReleases] at h
        omega

/-- C3, witness: one subject, one clip, terminal flat call on a failing
engine — the handle is still released exactly once. -/
theorem c3_handle_released_once_witness :
    lifecycleReleases failEngine sampleOps (.flat .Union .NonZero) = some 1 ∧ (1 : Nat) = 1 :=
  ⟨rfl, c3_handle_released_once failEngine sampleOps (.flat .Union .NonZero) 1 rfl⟩

/-- C4: when the engine's execute primitive (flat or tree variant) reports
non-success, the call returns `FailedBooleanOperation` (an error carries no
geometry, and the embedding's failure branch — like the source, which
returns before `from_clipperpaths64` — never reads the output buffers),
every output buffer allocated for the call is still released, and
`FailedBooleanOperation` is the only error value either call can ever
return. -/
theorem c4_failure_path (E : Engine) (self : Clipper) (ct : ClipType) (fr : FillRule) :
    (E.exec self.engine ct fr = none →
      (self.boolean_operation E ct fr).result = .error .FailedBooleanOperation ∧
      (self.boolean_operation E ct fr).outputBuffersDeleted =
        (self.boolean_operation E ct fr).outputBuffersAllocated) ∧
    (E.execTree self.engine ct fr = none →
      (self.boolean_operation_tree E ct fr).result = .error .FailedBooleanOperation ∧
      (self.boolean_operation_tree E ct fr).treeHandlesDeleted = 1 ∧
      (self.boolean_operation_tree E ct fr).openBuffersDeleted = 1) ∧
    (∀ e, (self.boolean_operation E ct fr).result = .error e →
      e = .FailedBooleanOperation) ∧
    (∀ e, (self.boolean_operation_tree E ct fr).result = .error e →
      e = .FailedBooleanOperation) := by
  refine ⟨fun h => ?_, fun h => ?_, fun e _ => ?_, fun e _ => ?_⟩
  · simp [Clipper.boolean_operation, h]
  · simp [Clipper.boolean_operation_tree, h]
  · cases e; rfl
  · cases e; rfl

/-- C4, witness: a failing engine makes the flat call report
`FailedBooleanOperation`. -/
theorem c4_failure_path_witness :
    (Clipper.boolean_operation failEngine scenarioBuilder .Union .NonZero).result =
      .error .FailedBooleanOperation :=
  ((c4_failure_path failEngine scenarioBuilder .Union .NonZero).1 rfl).1

/-- C5: on every successful tree-producing operation the result is the
eager copy `from_ptr` of the engine's native tree, the native tree is
released in exactly one `clipper_delete_polytree64` call (and the open
buffer in one `clipper_delete_paths64` call), and the copy is the one-pass
structural walk: each engine node yields one owned node carrying that
node's hole flag and a copy of its polygon, with children built by
recursing into the 0-based child indices in the engine's reported
order. -/
theorem c5_eager_copy (E : Engine) (self : Clipper) (ct : ClipType) (fr : FillRule)
    (tree : EngineTree) (openOut : Paths64)
    (h : E.execTree self.engine ct fr = some (tree, openOut)) :
    (self.boolean_operation_tree E ct fr).result = .ok ⟨PolyTree.from_ptr tree, openOut⟩ ∧
    (self.boolean_operation_tree E ct fr).treeHandlesDeleted = 1 ∧
    (self.boolean_operation_tree E ct fr).openBuffersDeleted = 1 ∧
    ∀ (isHole : Bool) (polygon : Path64) (children : List EngineTree),
      PolyTree.from_ptr (.node isHole polygon children) =
        .mk (children.map PolyTree.from_ptr) isHole polygon := by
  refine ⟨?_, ?_, ?_, ?_⟩
  · simp [Clipper.boolean_operation_tree, h]
  · simp [Clipper.boolean_operation_tree, h]
  · simp [Clipper.boolean_operation_tree, h]
  · intro isHole polygon children
    rw [PolyTree.from_ptr, from_ptr_children_eq_map]

/-- C5, witness: the hole scenario's native tree is deleted in exactly one
call. -/
theorem c5_eager_copy_witness :
    (Clipper.boolean_operation_tree scenarioEngine scenarioBuilder
      .Intersection .NonZero).treeHandlesDeleted = 1 :=
  (c5_eager_copy scenarioEngine scenarioBuilder .Intersection .NonZero
    holeScenarioTree [] rfl).2.1

/-- C6: for every node, `to_paths` is the depth-first pre-order flatten of
the node's and all descendants' polygons (the node's own polygon first,
then each child's subtree in children order), and `get_hole_paths` is the
same pre-order flatten restricted to exactly the nodes whose `is_hole` flag
is true. -/
theorem c6_preorder_flatten (t : PolyTree) :
    t.to_paths = t.preorderNodes.map PolyTree.polygon ∧
    t.get_hole_paths = (t.preorderNodes.filter PolyTree.is_hole).map PolyTree.polygon := by
  constructor
  · rw [PolyTree.to_paths, collect_paths_eq]
    simp
  · rw [PolyTree.get_hole_paths, collect_hole_paths_eq]
    simp

/-- C7: on the spec's pinned fixture — subject square
`(0.2,0.2)-(6,0.2)-(6,6)-(0.2,6)`, clip square `(5,5)-(8,5)-(8,8)-(5,8)`,
union, non-zero fill rule — the call returns `Ok` with exactly one closed
contour, the 8-vertex L-shaped union polygon (its application coordinates
recovered exactly by the inverse scaling), and an empty open collection. -/
theorem c7_union_fixture :
    (Operations.union unionFixtureEngine [centiScalePath unionSubjectQ]
        [centiScalePath unionClipQ] .NonZero).result =
      .ok ⟨[centiScalePath unionExpectedQ], []⟩ ∧
    unionExpectedQ.length = 8 ∧
    centiDescalePath (centiScalePath unionExpectedQ) = unionExpectedQ := by
  refine ⟨?_, rfl, ?_⟩
  · simp [Operations.union, Clipper.union, Clipper.boolean_operation, unionFixtureEngine,
      Clipper.new, Clipper.add_subject, Clipper.add_clip, Clipper.add_subject_stay,
      Clipper.add_clip_stay, unionFixtureState, EngineState.empty]
  · simp [centiDescalePath, centiScalePath, centiScalePoint, centiDescalePoint,
      unionExpectedQ, round_eq]
    norm_num [Int.floor_eq_iff]

/-- C8: the boolean pipeline is deterministic — two runs of the same
operation over identically registered geometry (two independently executed
builder chains in the embedding) produce path sets that agree, in
particular up to the order-insensitive comparison of contour point
sequences. -/
theorem c8_deterministic (E : Engine) (ops : List RegOp) (ct : ClipType) (fr : FillRule)
    (call1 call2 : FlatCall) (r1 r2 : BooleanResult)
    (h1 : runFlat E ops ct fr = some call1) (h2 : runFlat E ops ct fr = some call2)
    (hr1 : call1.result = .ok r1) (hr2 : call2.result = .ok r2) :
    pathsSetEq r1.closed r2.closed ∧ pathsSetEq r1.openPaths r2.openPaths := by
  have hc : call1 = call2 := by
    rw [h1] at h2
    exact Option.some.inj h2
  subst hc
  rw [hr1] at hr2
  cases Except.ok.inj hr2
  exact ⟨rfl, rfl⟩

/-- C8, witness: two identical sample runs against the deterministic
engine agree. -/
theorem c8_deterministic_witness :
    pathsSetEq [[((0 : Int), (0 : Int)), (4, 0), (4, 4)]] [[(0, 0), (4, 0), (4, 4)]] ∧
    pathsSetEq [] [] :=
  c8_deterministic okEngine sampleOps .Union .NonZero sampleCall sampleCall
    ⟨[[(0, 0), (4, 0), (4, 4)]], []⟩ ⟨[[(0, 0), (4, 0), (4, 4)]], []⟩ rfl rfl rfl rfl

/-- C9: `get_child` is total — it returns a child exactly when the index is
below `child_count`, and `none` (no panic is possible) once the index is
out of bounds. -/
theorem c9_get_child_bounds (t : PolyTree) (i : Nat) :
    ((t.get_child i).isSome ↔ i < t.child_count) ∧
    (t.child_count ≤ i → t.get_child i = none) := by
  constructor
  · constructor
    · intro hs
      rcases Option.isSome_iff_exists.mp hs with ⟨a, ha⟩
      rcases List.get?_eq_some.mp ha with ⟨hlt, _⟩
      exact hlt
    · intro hlt
      rw [PolyTree.get_child, List.get?_eq_get hlt]
      rfl
  · intro hge
    exact List.get?_eq_none.mpr hge

/-- C9, witness: a leaf node has no child at index 0. -/
theorem c9_get_child_bounds_witness :
    (PolyTree.mk [] false []).get_child 0 = none :=
  (c9_get_child_bounds (.mk [] false []) 0).2 (by decide)

/-- C10: the free function `union` of `operations/union.rs` returns exactly
what the builder chain
`Clipper::new().add_subject(subject).add_clip(clip).union(fill_rule)`
returns, for every engine, geometry and fill rule. -/
theorem c10_union_refines_builder (E : Engine) (subject clip : Paths64) (fr : FillRule) :
    Operations.union E subject clip fr =
      (((Clipper.new.add_subject subject).1.add_clip clip).1).union E fr :=
  rfl

end Clipper2
